import Mathlib

/-!
Verification of the virtio PCI transport (`vm-virtio/src/transport/pci_device.rs`).

The transport object `VirtioPciDevice` is embedded shallowly: machine
integers become `Nat` with explicit truncation where the source casts,
`EventFd` handles become `Nat` identifiers, `Option` models the Rust
`Option` fields, and the external collaborators (the virtqueue type, the
pluggable `VirtioDevice` trait, the common-config register view and the
PCI configuration register file) are modelled from the specification,
since their code lives outside the transport source file.
-/

namespace VirtioPciModel

/-- Modelled from the spec: crate-level driver-status flag ACKNOWLEDGE (value per spec section 8). -/
def DEVICE_ACKNOWLEDGE : Nat := 1

/-- Modelled from the spec: crate-level driver-status flag DRIVER. -/
def DEVICE_DRIVER : Nat := 2

/-- Modelled from the spec: crate-level driver-status flag FEATURES_OK. -/
def DEVICE_FEATURES_OK : Nat := 4

/-- Modelled from the spec: crate-level driver-status flag DRIVER_OK. -/
def DEVICE_DRIVER_OK : Nat := 8

/-- Modelled from the spec: crate-level driver-status flag FAILED (virtio standard bit 7). -/
def DEVICE_FAILED : Nat := 128

/-- Modelled from the spec: crate-level driver-status value INIT (0, uninitialized). -/
def DEVICE_INIT : Nat := 0

/-- Largest value of a 64-bit `usize`; the interrupt aggregator is an `AtomicUsize`. -/
def USIZE_MAX : Nat := 2 ^ 64 - 1

-- BAR layout constants, from the source file.
def COMMON_CONFIG_BAR_OFFSET : Nat := 0x0000
def COMMON_CONFIG_SIZE : Nat := 56
def ISR_CONFIG_BAR_OFFSET : Nat := 0x1000
def ISR_CONFIG_SIZE : Nat := 1
def DEVICE_CONFIG_BAR_OFFSET : Nat := 0x2000
def DEVICE_CONFIG_SIZE : Nat := 0x1000
def NOTIFICATION_BAR_OFFSET : Nat := 0x3000
def NOTIFICATION_SIZE : Nat := 0x1000
def CAPABILITY_BAR_SIZE : Nat := 0x4000

/-- A dword per notification address. -/
def NOTIFY_OFF_MULTIPLIER : Nat := 4

def VIRTIO_PCI_VENDOR_ID : Nat := 0x1af4
def VIRTIO_PCI_DEVICE_ID_BASE : Nat := 0x1040

/-- Modelled from the spec: the guest memory handle is consumed as a
cheaply-shareable opaque handle; represented by an identifier. -/
abbrev GuestMemoryMmap := Nat

/-- Modelled from the spec: a signal handle (`EventFd`), represented by an identifier. -/
abbrev EventFdId := Nat

/-- Modelled from the spec: the virtqueue is consumed as an opaque queue
abstraction with a validity (liveness) check against the memory handle and a
reset-to-defaults operation; the outcome of the liveness check is carried by
the `live` field, `ready` is the queue-enable state. -/
structure Queue where
  max_size : Nat
  size : Nat
  ready : Bool
  live : Bool
deriving DecidableEq

/-- Modelled from the spec: `Queue::new(max_size)` builds a disabled queue. -/
def Queue.new (s : Nat) : Queue :=
  { max_size := s, size := s, ready := false, live := false }

/-- Modelled from the spec: the queue liveness predicate against the attached
memory handle; internals are out of scope, represented by the `live` field. -/
def Queue.is_valid (q : Queue) (_mem : GuestMemoryMmap) : Bool :=
  q.live

/-- Modelled from the spec: `Queue::reset` restores the default (disabled)
state — queue readiness cleared, size restored to the maximum. -/
def Queue.reset (q : Queue) : Queue :=
  { q with size := q.max_size, ready := false, live := false }

/-- Modelled from the spec: the pluggable virtio device, consumed through the
collaborator contract of spec section 6: it reports a type and per-queue
maximum sizes, exposes device-specific config bytes, accepts activation
(taking ownership of the interrupt-trigger signal, the notification signal
set and queue clones) and offers reset (returning those signals, or
indicating "unsupported"). `activate_count` counts activation calls. -/
structure VirtioDevice where
  device_type : Nat
  queue_max_sizes : List Nat
  config : List Nat
  supports_reset : Bool
  held_interrupt_evt : Option EventFdId
  held_queue_evts : List EventFdId
  held_queues : List Queue
  activate_count : Nat
deriving DecidableEq

/-- Modelled from the spec: device-specific config read, offset-adjusted. -/
def VirtioDevice.read_config (d : VirtioDevice) (offset : Nat) (data : List Nat) : List Nat :=
  (List.range data.length).map (fun i => d.config.getD (offset + i) 0)

/-- Modelled from the spec: device-specific config write. -/
def VirtioDevice.write_config (d : VirtioDevice) (offset : Nat) (data : List Nat) : VirtioDevice :=
  { d with config := (d.config.enum.map
      (fun p => if offset ≤ p.1 ∧ p.1 < offset + data.length then data.getD (p.1 - offset) 0 else p.2)) }

/-- Modelled from the spec: activation hands the device the memory handle, the
interrupt-trigger signal, the shared interrupt aggregator, queue clones and
exclusive ownership of the notification signal set. -/
def VirtioDevice.activate (d : VirtioDevice) (_mem : GuestMemoryMmap) (interrupt_evt : EventFdId)
    (_interrupt_status : Nat) (queues : List Queue) (queue_evts : List EventFdId) : VirtioDevice :=
  { d with
    held_interrupt_evt := some interrupt_evt,
    held_queue_evts := queue_evts,
    held_queues := queues,
    activate_count := d.activate_count + 1 }

/-- Modelled from the spec: reset returns ownership of the interrupt-trigger
signal and the notification signal set, or returns nothing when the device
does not support reset. -/
def VirtioDevice.reset (d : VirtioDevice) : Option (EventFdId × List EventFdId) × VirtioDevice :=
  if d.supports_reset then
    match d.held_interrupt_evt with
    | some ie =>
      (some (ie, d.held_queue_evts),
        { d with held_interrupt_evt := none, held_queue_evts := [], held_queues := [] })
    | none => (none, d)
  else (none, d)

/-- The virtio PCI common configuration state, fields as in the source. -/
structure VirtioPciCommonConfig where
  driver_status : Nat
  config_generation : Nat
  device_feature_select : Nat
  driver_feature_select : Nat
  queue_select : Nat
deriving DecidableEq

/-- Enable or disable queue `i` of the queue set (helper for the modelled
common-config write). -/
def setQueueEnable (qs : List Queue) (i : Nat) (en : Bool) : List Queue :=
  qs.enum.map (fun p => if p.1 = i then { p.2 with ready := en, live := en } else p.2)

/-- Modelled from the spec: the common-config register view (external
collaborator) handles driver status, queue selection and queue configuration.
Per the virtio 1.0 common-configuration layout, device_status sits at byte
offset 0x14, queue_select at 0x16 and queue_enable (for the selected queue)
at 0x1C; other offsets are out of scope here and leave the state unchanged. -/
def VirtioPciCommonConfig.write (c : VirtioPciCommonConfig) (offset : Nat) (data : List Nat)
    (queues : List Queue) : VirtioPciCommonConfig × List Queue :=
  match offset, data with
  | 0x14, v :: _ => ({ c with driver_status := v % 256 }, queues)
  | 0x16, lo :: rest => ({ c with queue_select := (lo % 256 + 256 * (rest.headD 0 % 256)) }, queues)
  | 0x1C, v :: _ => (c, setQueueEnable queues c.queue_select (v % 256 ≠ 0))
  | _, _ => (c, queues)

/-- Modelled from the spec: the common-config register view read path; only
the registers the model tracks are served, other offsets leave the buffer. -/
def VirtioPciCommonConfig.read (c : VirtioPciCommonConfig) (offset : Nat) (data : List Nat) :
    List Nat :=
  match offset, data with
  | 0x14, _ :: rest => (c.driver_status % 256) :: rest
  | 0x16, _ :: rest => (c.queue_select % 256) :: rest
  | _, _ => data

/-- Modelled from the spec: the generic PCI configuration-space register file
(external collaborator), reduced to what the transport consumes: registered
BAR addresses by index, the appended capability list and the interrupt
routing. -/
structure PciConfiguration where
  vendor_id : Nat
  device_id : Nat
  bar_addrs : List Nat
  capabilities : List (List Nat)
  irq : Option (Nat × Nat)
deriving DecidableEq

/-- Modelled from the spec: a fresh configuration register file. -/
def PciConfiguration.new (vendor device : Nat) : PciConfiguration :=
  { vendor_id := vendor, device_id := device, bar_addrs := [], capabilities := [], irq := none }

/-- Modelled from the spec: address of the 64-bit BAR at the given index. -/
def PciConfiguration.get_bar64_addr (c : PciConfiguration) (idx : Nat) : Nat :=
  c.bar_addrs.getD idx 0

/-- Modelled from the spec: record interrupt number and pin. -/
def PciConfiguration.set_irq (c : PciConfiguration) (irq_num pin : Nat) : PciConfiguration :=
  { c with irq := some (irq_num, pin) }

/-- The capability structure type tags of the source enum. -/
inductive PciCapabilityType where
  | CommonConfig
  | NotifyConfig
  | IsrConfig
  | DeviceConfig
  | PciConfig
deriving DecidableEq

/-- Numeric value of each capability type tag, as in the source enum. -/
def PciCapabilityType.toNat : PciCapabilityType → Nat
  | .CommonConfig => 1
  | .NotifyConfig => 2
  | .IsrConfig => 3
  | .DeviceConfig => 4
  | .PciConfig => 5

/-- The `cap_len` value advertised by the generic capability record. -/
def VIRTIO_PCI_CAPABILITY_BYTES : Nat := 16

/-- `size_of::<VirtioPciNotifyCap>()` for the packed struct: 14 + 4 bytes. -/
def VIRTIO_PCI_NOTIFY_CAP_SIZE_OF : Nat := 18

/-- The generic virtio PCI capability struct, fields as in the source
(`cap_len`, `cfg_type`, `pci_bar` are `u8`, `padding` three bytes, `offset`
and `length` little-endian `u32`). -/
structure VirtioPciCap where
  cap_len : Nat
  cfg_type : Nat
  pci_bar : Nat
  padding : List Nat
  offset : Nat
  length : Nat
deriving DecidableEq

/-- `VirtioPciCap::new`. -/
def VirtioPciCap.new (cfg_type : PciCapabilityType) (pci_bar offset length : Nat) :
    VirtioPciCap :=
  { cap_len := VIRTIO_PCI_CAPABILITY_BYTES
    cfg_type := cfg_type.toNat
    pci_bar := pci_bar
    padding := [0, 0, 0]
    offset := offset
    length := length }

/-- Little-endian byte serialization of a `u32` value. -/
def u32_to_le_bytes (x : Nat) : List Nat :=
  [x % 256, x / 256 % 256, x / 65536 % 256, x / 16777216 % 256]

/-- `PciCapability::bytes` for the generic record: the byte image of the
packed struct (field by field, little-endian). -/
def VirtioPciCap.bytes (c : VirtioPciCap) : List Nat :=
  [c.cap_len % 256, c.cfg_type % 256, c.pci_bar % 256] ++ c.padding
    ++ u32_to_le_bytes c.offset ++ u32_to_le_bytes c.length

/-- The notify capability struct: the generic record plus the notify-offset
multiplier (`u32`). -/
structure VirtioPciNotifyCap where
  cap : VirtioPciCap
  notify_off_multiplier : Nat
deriving DecidableEq

/-- `VirtioPciNotifyCap::new`; note the source sets `cap_len` to the packed
struct size (18), not to the constant 16 used by the generic record. -/
def VirtioPciNotifyCap.new (cfg_type : PciCapabilityType) (pci_bar offset length mult : Nat) :
    VirtioPciNotifyCap :=
  { cap :=
    { cap_len := VIRTIO_PCI_NOTIFY_CAP_SIZE_OF
      cfg_type := cfg_type.toNat
      pci_bar := pci_bar
      padding := [0, 0, 0]
      offset := offset
      length := length }
    notify_off_multiplier := mult }

/-- `PciCapability::bytes` for the notify record. -/
def VirtioPciNotifyCap.bytes (c : VirtioPciNotifyCap) : List Nat :=
  c.cap.bytes ++ u32_to_le_bytes c.notify_off_multiplier

/-- Decoder for the generic capability byte image, reading the fields back
from the little-endian layout; yields `(type, bar, offset, length)`. -/
def decode_virtio_pci_cap (bs : List Nat) : Option (Nat × Nat × Nat × Nat) :=
  match bs with
  | _ :: t :: b :: _ :: _ :: _ :: o0 :: o1 :: o2 :: o3 :: l0 :: l1 :: l2 :: l3 :: [] =>
    some (t, b, o0 + 256 * o1 + 65536 * o2 + 16777216 * o3,
      l0 + 256 * l1 + 65536 * l2 + 16777216 * l3)
  | _ => none

/-- Decoder for the notify capability byte image; yields
`(type, bar, offset, length, multiplier)`. -/
def decode_virtio_pci_notify_cap (bs : List Nat) : Option (Nat × Nat × Nat × Nat × Nat) :=
  match bs with
  | _ :: t :: b :: _ :: _ :: _ :: o0 :: o1 :: o2 :: o3 :: l0 :: l1 :: l2 :: l3
      :: m0 :: m1 :: m2 :: m3 :: [] =>
    some (t, b, o0 + 256 * o1 + 65536 * o2 + 16777216 * o3,
      l0 + 256 * l1 + 65536 * l2 + 16777216 * l3,
      m0 + 256 * m1 + 65536 * m2 + 16777216 * m3)
  | _ => none

/-- The five routing outcomes of the BAR dispatcher. -/
inductive BarRegion where
  | commonConfig
  | isr
  | deviceConfig
  | notification
  | unmapped
deriving DecidableEq

/-- The ordered guard chain of the `match offset` dispatch shared by
`read_bar` and `write_bar` in the source. -/
def classify_bar_offset (o : Nat) : BarRegion :=
  if o < COMMON_CONFIG_BAR_OFFSET + COMMON_CONFIG_SIZE then .commonConfig
  else if ISR_CONFIG_BAR_OFFSET ≤ o ∧ o < ISR_CONFIG_BAR_OFFSET + ISR_CONFIG_SIZE then .isr
  else if DEVICE_CONFIG_BAR_OFFSET ≤ o ∧ o < DEVICE_CONFIG_BAR_OFFSET + DEVICE_CONFIG_SIZE then
    .deviceConfig
  else if NOTIFICATION_BAR_OFFSET ≤ o ∧ o < NOTIFICATION_BAR_OFFSET + NOTIFICATION_SIZE then
    .notification
  else .unmapped

/-- The region map exactly as the spec words it (for comparison with the
dispatcher): common-config for offsets below 0x38, ISR at 0x1000,
device-config on [0x2000, 0x3000), notification on [0x3000, 0x4000),
no-op otherwise. -/
def spec_region_map (o : Nat) : BarRegion :=
  if o < 0x38 then .commonConfig
  else if o = 0x1000 then .isr
  else if 0x2000 ≤ o ∧ o < 0x3000 then .deviceConfig
  else if 0x3000 ≤ o ∧ o < 0x4000 then .notification
  else .unmapped

/-- The transport aggregate, fields as in the source struct. -/
structure VirtioPciDevice where
  configuration : PciConfiguration
  common_config : VirtioPciCommonConfig
  device : VirtioDevice
  device_activated : Bool
  interrupt_status : Nat
  interrupt_evt : Option EventFdId
  queues : List Queue
  queue_evts : List EventFdId
  memory : Option GuestMemoryMmap
  settings_bar : Nat
deriving DecidableEq

/-- `VirtioPciDevice::new`: one queue and one notification `EventFd` per
entry of the device-reported maximum queue sizes (fresh handles modelled by
their indices), empty common config, inactive. -/
def VirtioPciDevice.new (memory : GuestMemoryMmap) (device : VirtioDevice) : VirtioPciDevice :=
  { configuration :=
      PciConfiguration.new VIRTIO_PCI_VENDOR_ID (VIRTIO_PCI_DEVICE_ID_BASE + device.device_type)
    common_config :=
    { driver_status := 0
      config_generation := 0
      device_feature_select := 0
      driver_feature_select := 0
      queue_select := 0 }
    device := device
    device_activated := false
    interrupt_status := 0
    interrupt_evt := none
    queues := device.queue_max_sizes.map Queue.new
    queue_evts := List.range device.queue_max_sizes.length
    memory := some memory
    settings_bar := 0 }

/-- `PciDevice::assign_irq`. -/
def VirtioPciDevice.assign_irq (s : VirtioPciDevice) (irq_evt : EventFdId) (irq_num pin : Nat) :
    VirtioPciDevice :=
  { s with
    configuration := s.configuration.set_irq irq_num pin,
    interrupt_evt := some irq_evt }

/-- `VirtioPciDevice::is_driver_ready`: the driver status equals the ready
bits exactly and the FAILED bit is clear. -/
def VirtioPciDevice.is_driver_ready (s : VirtioPciDevice) : Bool :=
  let ready_bits := DEVICE_ACKNOWLEDGE ||| DEVICE_DRIVER ||| DEVICE_DRIVER_OK ||| DEVICE_FEATURES_OK
  s.common_config.driver_status == ready_bits
    && (s.common_config.driver_status &&& DEVICE_FAILED == 0)

/-- `VirtioPciDevice::is_driver_init`: the driver requested reset. -/
def VirtioPciDevice.is_driver_init (s : VirtioPciDevice) : Bool :=
  s.common_config.driver_status == DEVICE_INIT

/-- `VirtioPciDevice::are_queues_valid`: every queue passes its liveness
check against the present memory handle; false when no handle is attached. -/
def VirtioPciDevice.are_queues_valid (s : VirtioPciDevice) : Bool :=
  match s.memory with
  | some mem => s.queues.all (fun q => q.is_valid mem)
  | none => false

/-- The region dispatch of `write_bar` (the `match offset` statement). -/
def VirtioPciDevice.dispatch_write (s : VirtioPciDevice) (offset : Nat) (data : List Nat) :
    VirtioPciDevice :=
  match classify_bar_offset offset with
  | .commonConfig =>
    let p := s.common_config.write (offset - COMMON_CONFIG_BAR_OFFSET) data s.queues
    { s with common_config := p.1, queues := p.2 }
  | .isr =>
    match data.head? with
    | some v =>
      { s with interrupt_status := s.interrupt_status &&& (USIZE_MAX ^^^ (v % 256)) }
    | none => s
  | .deviceConfig =>
    { s with device := s.device.write_config (offset - DEVICE_CONFIG_BAR_OFFSET) data }
  | .notification => s
  | .unmapped => s

/-- The activation check run after every BAR write (source lines 442-458):
when the device is not yet activated, the driver is ready and the queues are
valid, the interrupt-trigger signal is taken; if a memory handle is present
the device is activated with a memory clone, the taken signal, the shared
aggregator, queue clones and the whole notification signal set
(`split_off(0)` leaves the transport with none). -/
def VirtioPciDevice.check_activate (s : VirtioPciDevice) : VirtioPciDevice :=
  if !s.device_activated && s.is_driver_ready && s.are_queues_valid then
    match s.interrupt_evt with
    | some interrupt_evt =>
      match s.memory with
      | some mem =>
        { s with
          device := s.device.activate mem interrupt_evt s.interrupt_status s.queues s.queue_evts,
          interrupt_evt := none,
          queue_evts := [],
          device_activated := true }
      | none => { s with interrupt_evt := none }
    | none => s
  else s

/-- The reset check run after every BAR write (source lines 461-477): when
the device is activated and the driver wrote INIT, the device is reset; on
success the interrupt-trigger and notification signals are reabsorbed, the
activated flag cleared, the queues reset to defaults and queue selection
reset to 0; on failure the condition is logged and the driver status forced
to FAILED. -/
def VirtioPciDevice.check_reset (s : VirtioPciDevice) : VirtioPciDevice :=
  if s.device_activated && s.is_driver_init then
    match s.device.reset with
    | (some p, d) =>
      { s with
        device := d,
        interrupt_evt := some p.1,
        queue_evts := s.queue_evts ++ p.2,
        device_activated := false,
        queues := s.queues.map Queue.reset,
        common_config := { s.common_config with queue_select := 0 } }
    | (none, d) =>
      { s with
        device := d,
        common_config := { s.common_config with driver_status := DEVICE_FAILED } }
  else s

/-- `PciDevice::write_bar`: region dispatch, then the activation check, then
the reset check, in source order. -/
def VirtioPciDevice.write_bar (s : VirtioPciDevice) (offset : Nat) (data : List Nat) :
    VirtioPciDevice :=
  ((s.dispatch_write offset data).check_activate).check_reset

/-- `PciDevice::read_bar`: returns the successor state and the (possibly
overwritten) read buffer. The ISR arm swaps the aggregator to 0 and stores
the prior value, truncated to a byte, in the first buffer byte. -/
def VirtioPciDevice.read_bar (s : VirtioPciDevice) (offset : Nat) (data : List Nat) :
    VirtioPciDevice × List Nat :=
  match classify_bar_offset offset with
  | .commonConfig =>
    (s, s.common_config.read (offset - COMMON_CONFIG_BAR_OFFSET) data)
  | .isr =>
    match data with
    | _ :: rest => ({ s with interrupt_status := 0 }, (s.interrupt_status % 256) :: rest)
    | [] => (s, data)
  | .deviceConfig =>
    (s, s.device.read_config (offset - DEVICE_CONFIG_BAR_OFFSET) data)
  | .notification => (s, data)
  | .unmapped => (s, data)

/-- `PciDevice::ioeventfds`: one `(signal, address, tag)` triple per held
notification signal, at `bar0 + 0x3000 + 4 * index` with the index as tag. -/
def VirtioPciDevice.ioeventfds (s : VirtioPciDevice) : List (EventFdId × Nat × Nat) :=
  let bar0 := s.configuration.get_bar64_addr s.settings_bar
  let notify_base := bar0 + NOTIFICATION_BAR_OFFSET
  s.queue_evts.enum.map (fun p => (p.2, notify_base + p.1 * NOTIFY_OFF_MULTIPLIER, p.1))

/-! Concrete example states, used to evaluate the model on closed inputs. -/

/-- An example memory handle. -/
def exMem : GuestMemoryMmap := 0

/-- An example pluggable device declaring two queues of maximum size 256,
with reset support. -/
def exDevice : VirtioDevice :=
  { device_type := 0
    queue_max_sizes := [256, 256]
    config := []
    supports_reset := true
    held_interrupt_evt := none
    held_queue_evts := []
    held_queues := []
    activate_count := 0 }

/-- The example device without reset support. -/
def exDeviceNoReset : VirtioDevice :=
  { exDevice with supports_reset := false }

/-- The transport as constructed for the example device. -/
def exNew : VirtioPciDevice := VirtioPciDevice.new exMem exDevice

/-- The constructed transport after interrupt assignment (signal handle 7,
IRQ 5, pin 0). -/
def exIrq : VirtioPciDevice := exNew.assign_irq 7 5 0

/-- Enable both queues of a transport through guest writes: select queue 0,
enable it, select queue 1, enable it. -/
def enableBothQueues (s : VirtioPciDevice) : VirtioPciDevice :=
  (((s.write_bar 0x16 [0, 0]).write_bar 0x1C [1]).write_bar 0x16 [1, 0]).write_bar 0x1C [1]

/-- The example transport with both queues enabled, ready to activate. -/
def exConfigured : VirtioPciDevice := enableBothQueues exIrq

/-- The example transport after the guest drove the driver status to ready:
activation has fired. -/
def exActivated : VirtioPciDevice := exConfigured.write_bar 0x14 [15]

/-- A transport whose queues are valid and whose driver status is ready but
whose interrupt-trigger signal was never assigned. -/
def exStuck : VirtioPciDevice := (enableBothQueues exNew).write_bar 0x14 [15]

/-- The reset-incapable device, activated. -/
def exActivatedNoReset : VirtioPciDevice :=
  (enableBothQueues ((VirtioPciDevice.new exMem exDeviceNoReset).assign_irq 7 5 0)).write_bar
    0x14 [15]

/-- The example transport with pending interrupt causes 0b101. -/
def exIsr : VirtioPciDevice := { exActivated with interrupt_status := 5 }

example : exActivated.device_activated = true := by decide
example : exActivated.queue_evts = [] := by decide
example : exActivated.device.held_queue_evts = [0, 1] := by decide
example : exActivated.device.held_interrupt_evt = some 7 := by decide
example : exActivated.device.activate_count = 1 := by decide
example : (exActivated.write_bar 0x14 [15]).device.activate_count = 1 := by decide
example : exStuck.device_activated = false := by decide
example : exStuck.is_driver_ready = true := by decide
example : exStuck.are_queues_valid = true := by decide
example : (exActivated.write_bar 0x14 [0]).device_activated = false := by decide
example : (exActivated.write_bar 0x14 [0]).interrupt_evt = some 7 := by decide
example : (exActivated.write_bar 0x14 [0]).queue_evts = [0, 1] := by decide
example : (exActivatedNoReset.write_bar 0x14 [0]).device_activated = true := by decide
example : (exActivatedNoReset.write_bar 0x14 [0]).common_config.driver_status = 128 := by decide
example : (exIsr.write_bar 0x1000 [1]).interrupt_status = 4 := by decide
example : (exIsr.read_bar 0x1000 [9]).2 = [5] := by decide
example : ((exIsr.read_bar 0x1000 [9]).1.read_bar 0x1000 [9]).2 = [0] := by decide
example : exNew.ioeventfds = [(0, 0x3000, 0), (1, 0x3004, 1)] := by decide

/-! Helper lemmas about the model. -/

theorem reset_snd_activate_count (d : VirtioDevice) :
    (d.reset).2.activate_count = d.activate_count := by
  unfold VirtioDevice.reset
  split
  · cases d.held_interrupt_evt <;> rfl
  · rfl

theorem dispatch_write_preserves (s : VirtioPciDevice) (offset : Nat) (data : List Nat) :
    (s.dispatch_write offset data).device_activated = s.device_activated
    ∧ (s.dispatch_write offset data).interrupt_evt = s.interrupt_evt
    ∧ (s.dispatch_write offset data).device.activate_count = s.device.activate_count
    ∧ (s.dispatch_write offset data).memory = s.memory
    ∧ (s.dispatch_write offset data).interrupt_status
        = (match classify_bar_offset offset, data.head? with
          | BarRegion.isr, some v => s.interrupt_status &&& (USIZE_MAX ^^^ (v % 256))
          | _, _ => s.interrupt_status) := by
  unfold VirtioPciDevice.dispatch_write
  cases h : classify_bar_offset offset <;> simp [h]
  · cases hd : data.head? <;> simp [hd]
  · simp [VirtioDevice.write_config]

theorem check_activate_interrupt_status (s : VirtioPciDevice) :
    (s.check_activate).interrupt_status = s.interrupt_status := by
  unfold VirtioPciDevice.check_activate
  split
  · cases hie : s.interrupt_evt <;> simp
    cases hm : s.memory <;> simp
  · rfl

theorem check_reset_interrupt_status (s : VirtioPciDevice) :
    (s.check_reset).interrupt_status = s.interrupt_status := by
  unfold VirtioPciDevice.check_reset
  split
  · rcases h : s.device.reset with ⟨o, d⟩
    rcases o with _ | p <;> simp [h]
  · rfl

theorem check_activate_fires (s : VirtioPciDevice) (ie : EventFdId) (mem : GuestMemoryMmap)
    (h1 : s.device_activated = false) (h2 : s.is_driver_ready = true)
    (h3 : s.are_queues_valid = true) (h4 : s.interrupt_evt = some ie)
    (h5 : s.memory = some mem) :
    s.check_activate = { s with
      device := s.device.activate mem ie s.interrupt_status s.queues s.queue_evts,
      interrupt_evt := none,
      queue_evts := [],
      device_activated := true } := by
  unfold VirtioPciDevice.check_activate
  simp [h1, h2, h3, h4, h5]

theorem check_activate_no_fire (s : VirtioPciDevice)
    (h : s.device_activated = true ∨ s.is_driver_ready = false ∨ s.are_queues_valid = false
      ∨ s.interrupt_evt = none) :
    (s.check_activate).device_activated = s.device_activated
    ∧ (s.check_activate).device = s.device
    ∧ (s.check_activate).queue_evts = s.queue_evts
    ∧ (s.check_activate).common_config = s.common_config
    ∧ (s.check_activate).queues = s.queues := by
  unfold VirtioPciDevice.check_activate
  rcases h with h | h | h | h
  · simp [h]
  · simp [h]
  · simp [h]
  · split
    · simp [h]
    · simp

theorem check_reset_skips (s : VirtioPciDevice)
    (h : s.device_activated = false ∨ s.is_driver_init = false) :
    s.check_reset = s := by
  unfold VirtioPciDevice.check_reset
  rcases h with h | h <;> simp [h]

theorem are_queues_valid_memory (s : VirtioPciDevice) (h : s.are_queues_valid = true) :
    ∃ mem, s.memory = some mem := by
  unfold VirtioPciDevice.are_queues_valid at h
  cases hm : s.memory
  · rw [hm] at h
    exact absurd h (by simp)
  · exact ⟨_, rfl⟩

theorem is_driver_ready_iff (s : VirtioPciDevice) :
    s.is_driver_ready = true ↔
      (s.common_config.driver_status
          = (DEVICE_ACKNOWLEDGE ||| DEVICE_DRIVER ||| DEVICE_DRIVER_OK ||| DEVICE_FEATURES_OK)
        ∧ s.common_config.driver_status &&& DEVICE_FAILED = 0) := by
  unfold VirtioPciDevice.is_driver_ready
  simp

theorem ready_not_init (s : VirtioPciDevice) (h : s.is_driver_ready = true) :
    s.is_driver_init = false := by
  rw [is_driver_ready_iff] at h
  unfold VirtioPciDevice.is_driver_init
  rw [h.1]
  rfl

/-! Claim theorems. -/

/-- C4: for every offset in [0, 0x4000) the BAR dispatcher classifies the
offset to exactly one handler per the fixed region map — common-config below
0x38, ISR at 0x1000, device-config on [0x2000, 0x3000), notification on
[0x3000, 0x4000), no-op otherwise — and the boundary offsets 0x37/0x38,
0xFFF/0x1000/0x1001, 0x1FFF/0x2000, 0x2FFF/0x3000, 0x3FFF/0x4000 are
classified accordingly. -/
theorem claim_C4_region_dispatch :
    (∀ o, o < 0x4000 → classify_bar_offset o = spec_region_map o)
    ∧ classify_bar_offset 0x37 = BarRegion.commonConfig
    ∧ classify_bar_offset 0x38 = BarRegion.unmapped
    ∧ classify_bar_offset 0xFFF = BarRegion.unmapped
    ∧ classify_bar_offset 0x1000 = BarRegion.isr
    ∧ classify_bar_offset 0x1001 = BarRegion.unmapped
    ∧ classify_bar_offset 0x1FFF = BarRegion.unmapped
    ∧ classify_bar_offset 0x2000 = BarRegion.deviceConfig
    ∧ classify_bar_offset 0x2FFF = BarRegion.deviceConfig
    ∧ classify_bar_offset 0x3000 = BarRegion.notification
    ∧ classify_bar_offset 0x3FFF = BarRegion.notification
    ∧ classify_bar_offset 0x4000 = BarRegion.unmapped := by
  refine ⟨?_, rfl, rfl, rfl, rfl, rfl, rfl, rfl, rfl, rfl, rfl, rfl⟩
  intro o ho
  unfold classify_bar_offset spec_region_map
  unfold COMMON_CONFIG_BAR_OFFSET COMMON_CONFIG_SIZE ISR_CONFIG_BAR_OFFSET ISR_CONFIG_SIZE
    DEVICE_CONFIG_BAR_OFFSET DEVICE_CONFIG_SIZE NOTIFICATION_BAR_OFFSET NOTIFICATION_SIZE
  split_ifs <;> first | rfl | omega

/-- C4 witness: the classification agrees with the spec region map at the
concrete in-range offset 0x2500. -/
theorem claim_C4_region_dispatch_witness :
    (0x2500 : Nat) < 0x4000 ∧ classify_bar_offset 0x2500 = spec_region_map 0x2500 :=
  ⟨by decide, claim_C4_region_dispatch.1 0x2500 (by decide)⟩

/-- C5: for every prior interrupt-status byte b, a read at the ISR offset
0x1000 swaps the shared aggregator to 0 and stores b in the first byte of
the read buffer, so a second immediate ISR read returns 0. -/
theorem claim_C5_isr_read_clears :
    ∀ (s : VirtioPciDevice) (b d0 : Nat) (rest : List Nat),
      s.interrupt_status = b → b < 256 →
      (s.read_bar 0x1000 (d0 :: rest)).2.head? = some b
      ∧ (s.read_bar 0x1000 (d0 :: rest)).1.interrupt_status = 0
      ∧ (((s.read_bar 0x1000 (d0 :: rest)).1).read_bar 0x1000 (d0 :: rest)).2.head? = some 0 := by
  intro s b d0 rest hb hlt
  have hc : classify_bar_offset 0x1000 = BarRegion.isr := rfl
  unfold VirtioPciDevice.read_bar
  rw [hc]
  simp [hb, Nat.mod_eq_of_lt hlt]

/-- C5 witness: on the example transport with pending causes 5, an ISR read
returns 5, clears the aggregator and a second read returns 0. -/
theorem claim_C5_isr_read_clears_witness :
    (exIsr.read_bar 0x1000 [9]).2.head? = some 5
    ∧ (exIsr.read_bar 0x1000 [9]).1.interrupt_status = 0
    ∧ (((exIsr.read_bar 0x1000 [9]).1).read_bar 0x1000 [9]).2.head? = some 0 :=
  claim_C5_isr_read_clears exIsr 5 9 [] (by decide) (by decide)

/-- C6: a write of byte v at the ISR offset 0x1000 updates the shared
aggregator from s to s AND NOT v, clearing exactly the bits present in the
written byte; in particular from state 0b101 a write of 0b001 leaves the
aggregator at 0b100. -/
theorem claim_C6_isr_write_clears_bits :
    (∀ (s : VirtioPciDevice) (v i : Nat), v < 256 → s.interrupt_status < 2 ^ 64 →
      ((s.write_bar 0x1000 [v]).interrupt_status).testBit i
        = (s.interrupt_status.testBit i && !(v.testBit i)))
    ∧ (exIsr.write_bar 0x1000 [1]).interrupt_status = 4 := by
  constructor
  · intro s v i hv hs
    have hd : (s.dispatch_write 0x1000 [v]).interrupt_status
        = s.interrupt_status &&& (USIZE_MAX ^^^ (v % 256)) :=
      (dispatch_write_preserves s 0x1000 [v]).2.2.2.2
    unfold VirtioPciDevice.write_bar
    rw [check_reset_interrupt_status, check_activate_interrupt_status, hd,
      Nat.mod_eq_of_lt hv]
    unfold USIZE_MAX
    rw [Nat.testBit_land, Nat.testBit_xor, Nat.testBit_two_pow_sub_one]
    by_cases hi : i < 64
    · simp [hi]
    · have ha : s.interrupt_status.testBit i = false := by
        apply Nat.testBit_lt_two_pow
        exact lt_of_lt_of_le hs (Nat.pow_le_pow_right (by norm_num) (Nat.le_of_not_lt hi))
      simp [hi, ha]
  · decide

/-- C6 witness: bit 0 of the aggregator is cleared and bit 2 survives when
the guest acknowledges cause 1 from state 0b101. -/
theorem claim_C6_isr_write_clears_bits_witness :
    ((exIsr.write_bar 0x1000 [1]).interrupt_status).testBit 0
        = (exIsr.interrupt_status.testBit 0 && !(Nat.testBit 1 0))
    ∧ ((exIsr.write_bar 0x1000 [1]).interrupt_status).testBit 2
        = (exIsr.interrupt_status.testBit 2 && !(Nat.testBit 1 2)) :=
  ⟨claim_C6_isr_write_clears_bits.1 exIsr 1 0 (by decide) (by decide),
    claim_C6_isr_write_clears_bits.1 exIsr 1 2 (by decide) (by decide)⟩

theorem u32_le_recombine (x : Nat) (h : x < 2 ^ 32) :
    x % 256 + 256 * (x / 256 % 256) + 65536 * (x / 65536 % 256)
      + 16777216 * (x / 16777216 % 256) = x := by
  omega

theorem cap_type_lt (t : PciCapabilityType) : t.toNat < 256 := by
  cases t <;> decide

/-- C9 counterexample: the byte image of a concrete generic capability
record (the common-config record of the source) is 14 bytes, not the 16
bytes the claim states. -/
theorem claim_C9_counterexample :
    (VirtioPciCap.new PciCapabilityType.CommonConfig 0 0 56).bytes.length ≠ 16 := by
  decide

/-- C9 (amended): the serialized capability struct is exactly 14 bytes (18
for the notify variant), laid out little-endian as
len, type, bar, pad[3], offset:u32, length:u32 and, for the notify variant,
multiplier:u32; the advertised len field is 16 for the generic record and 18
for the notify variant (the 2-byte generic PCI capability header that
precedes the struct on the wire is added by the configuration layer); and
decoding the serialized bytes recovers the identical
(type, bar, offset, length[, multiplier]) tuple. -/
theorem claim_C9_cap_roundtrip :
    ∀ (t : PciCapabilityType) (bar offset length mult : Nat),
      bar < 256 → offset < 2 ^ 32 → length < 2 ^ 32 → mult < 2 ^ 32 →
      (VirtioPciCap.new t bar offset length).bytes.length = 14
      ∧ (VirtioPciCap.new t bar offset length).cap_len = 16
      ∧ decode_virtio_pci_cap (VirtioPciCap.new t bar offset length).bytes
          = some (t.toNat, bar, offset, length)
      ∧ (VirtioPciNotifyCap.new t bar offset length mult).bytes.length = 18
      ∧ (VirtioPciNotifyCap.new t bar offset length mult).cap.cap_len = 18
      ∧ decode_virtio_pci_notify_cap (VirtioPciNotifyCap.new t bar offset length mult).bytes
          = some (t.toNat, bar, offset, length, mult) := by
  intro t bar offset length mult hb ho hl hm
  refine ⟨rfl, rfl, ?_, rfl, rfl, ?_⟩
  · unfold VirtioPciCap.new VirtioPciCap.bytes u32_to_le_bytes decode_virtio_pci_cap
    simp [Nat.mod_eq_of_lt hb, Nat.mod_eq_of_lt (cap_type_lt t),
      u32_le_recombine offset ho, u32_le_recombine length hl]
  · unfold VirtioPciNotifyCap.new VirtioPciNotifyCap.bytes VirtioPciCap.bytes u32_to_le_bytes
      decode_virtio_pci_notify_cap
    simp [Nat.mod_eq_of_lt hb, Nat.mod_eq_of_lt (cap_type_lt t),
      u32_le_recombine offset ho, u32_le_recombine length hl, u32_le_recombine mult hm]

/-- C9 witness: the device-config capability record of the source serializes
to 14 bytes with len field 16 and decodes back to its tuple. -/
theorem claim_C9_cap_roundtrip_witness :
    (0x2000 : Nat) < 2 ^ 32
    ∧ decode_virtio_pci_cap (VirtioPciCap.new PciCapabilityType.DeviceConfig 0 0x2000 0x1000).bytes
        = some (4, 0, 0x2000, 0x1000)
    ∧ decode_virtio_pci_notify_cap
          (VirtioPciNotifyCap.new PciCapabilityType.NotifyConfig 0 0x3000 0x1000 4).bytes
        = some (2, 0, 0x3000, 0x1000, 4) :=
  ⟨by decide,
    (claim_C9_cap_roundtrip PciCapabilityType.DeviceConfig 0 0x2000 0x1000 4
      (by decide) (by decide) (by decide) (by decide)).2.2.1,
    (claim_C9_cap_roundtrip PciCapabilityType.NotifyConfig 0 0x3000 0x1000 4
      (by decide) (by decide) (by decide) (by decide)).2.2.2.2.2⟩

/-- C8: for a transport holding n notification signals and capability BAR
base address A, the mapping exposed to the bus layer contains exactly n
triples, the i-th pairing the i-th queue EventFd with trigger address
A + 0x3000 + 4 * i and tag i. -/
theorem claim_C8_notification_mapping :
    ∀ (s : VirtioPciDevice) (n : Nat), s.queue_evts.length = n →
      s.ioeventfds.length = n
      ∧ s.ioeventfds = (List.range n).map
          (fun i => (s.queue_evts.getD i 0,
            s.configuration.get_bar64_addr s.settings_bar + 0x3000 + 4 * i, i)) := by
  intro s n h
  have hmain : s.ioeventfds = (List.range n).map
      (fun i => (s.queue_evts.getD i 0,
        s.configuration.get_bar64_addr s.settings_bar + 0x3000 + 4 * i, i)) := by
    unfold VirtioPciDevice.ioeventfds
    apply List.ext_getElem
    · simp [h]
    · intro i h1 h2
      have hi : i < s.queue_evts.length := by simpa [h] using h2
      simp only [List.getElem_map, List.getElem_enum, List.getElem_range]
      refine Prod.ext ?_ (Prod.ext ?_ rfl)
      · simp [List.getD_eq_getElem?_getD, List.getElem?_eq_getElem hi]
      · show s.configuration.get_bar64_addr s.settings_bar + NOTIFICATION_BAR_OFFSET
            + i * NOTIFY_OFF_MULTIPLIER
          = s.configuration.get_bar64_addr s.settings_bar + 0x3000 + 4 * i
        unfold NOTIFICATION_BAR_OFFSET NOTIFY_OFF_MULTIPLIER
        omega
  exact ⟨by simp [hmain], hmain⟩

/-- C8 witness: the freshly constructed example transport with two queues
exposes exactly the two triples (0, 0x3000, 0) and (1, 0x3004, 1). -/
theorem claim_C8_notification_mapping_witness :
    exNew.queue_evts.length = 2
    ∧ exNew.ioeventfds.length = 2
    ∧ exNew.ioeventfds = (List.range 2).map
        (fun i => (exNew.queue_evts.getD i 0,
          exNew.configuration.get_bar64_addr exNew.settings_bar + 0x3000 + 4 * i, i)) :=
  ⟨by decide, (claim_C8_notification_mapping exNew 2 (by decide)).1,
    (claim_C8_notification_mapping exNew 2 (by decide)).2⟩

theorem check_activate_of_activated (s : VirtioPciDevice) (h : s.device_activated = true) :
    s.check_activate = s := by
  unfold VirtioPciDevice.check_activate
  simp [h]

theorem device_reset_some (d : VirtioDevice) (ie : EventFdId)
    (h1 : d.supports_reset = true) (h2 : d.held_interrupt_evt = some ie) :
    d.reset = (some (ie, d.held_queue_evts),
      { d with held_interrupt_evt := none, held_queue_evts := [], held_queues := [] }) := by
  unfold VirtioDevice.reset
  simp [h1, h2]

theorem device_reset_none (d : VirtioDevice) (h : d.supports_reset = false) :
    d.reset = (none, d) := by
  unfold VirtioDevice.reset
  simp [h]

theorem check_reset_fires (s : VirtioPciDevice) (ie : EventFdId) (evts : List EventFdId)
    (d : VirtioDevice) (h1 : s.device_activated = true) (h2 : s.is_driver_init = true)
    (h3 : s.device.reset = (some (ie, evts), d)) :
    s.check_reset = { s with
      device := d,
      interrupt_evt := some ie,
      queue_evts := s.queue_evts ++ evts,
      device_activated := false,
      queues := s.queues.map Queue.reset,
      common_config := { s.common_config with queue_select := 0 } } := by
  unfold VirtioPciDevice.check_reset
  simp [h1, h2, h3]

theorem check_reset_fails (s : VirtioPciDevice) (d : VirtioDevice)
    (h1 : s.device_activated = true) (h2 : s.is_driver_init = true)
    (h3 : s.device.reset = (none, d)) :
    s.check_reset = { s with
      device := d,
      common_config := { s.common_config with driver_status := DEVICE_FAILED } } := by
  unfold VirtioPciDevice.check_reset
  simp [h1, h2, h3]

theorem check_reset_activate_count (s : VirtioPciDevice) :
    (s.check_reset).device.activate_count = s.device.activate_count := by
  unfold VirtioPciDevice.check_reset
  split
  · rcases h : s.device.reset with ⟨o, d⟩
    have hd := reset_snd_activate_count s.device
    rw [h] at hd
    rcases o with _ | p <;> simp [h] <;> exact hd
  · rfl

theorem check_activate_common_config (s : VirtioPciDevice) :
    (s.check_activate).common_config = s.common_config := by
  unfold VirtioPciDevice.check_activate
  split
  · cases hie : s.interrupt_evt <;> simp
    cases hm : s.memory <;> simp
  · rfl

/-- After a BAR write to an inactive transport, either nothing was activated
(and some activation condition failed), or the full activation branch ran
and the result state is exactly the source activation record. -/
theorem write_bar_inactive_split (s : VirtioPciDevice) (offset : Nat) (data : List Nat)
    (h0 : s.device_activated = false) :
    ((s.write_bar offset data).device_activated = false
      ∧ (s.write_bar offset data).device.activate_count = s.device.activate_count
      ∧ (s.write_bar offset data).queue_evts = (s.dispatch_write offset data).queue_evts
      ∧ ¬((s.dispatch_write offset data).is_driver_ready = true
        ∧ (s.dispatch_write offset data).are_queues_valid = true
        ∧ (s.dispatch_write offset data).interrupt_evt.isSome = true))
    ∨ (∃ ie mem,
        (s.dispatch_write offset data).is_driver_ready = true
        ∧ (s.dispatch_write offset data).are_queues_valid = true
        ∧ (s.dispatch_write offset data).interrupt_evt = some ie
        ∧ (s.dispatch_write offset data).memory = some mem
        ∧ s.write_bar offset data = { s.dispatch_write offset data with
            device := (s.dispatch_write offset data).device.activate mem ie
              (s.dispatch_write offset data).interrupt_status
              (s.dispatch_write offset data).queues (s.dispatch_write offset data).queue_evts,
            interrupt_evt := none,
            queue_evts := [],
            device_activated := true }) := by
  obtain ⟨hA, hE, hC, hM, hS⟩ := dispatch_write_preserves s offset data
  have h1 : (s.dispatch_write offset data).device_activated = false := by rw [hA]; exact h0
  have hleft : ((s.dispatch_write offset data).is_driver_ready = false
      ∨ (s.dispatch_write offset data).are_queues_valid = false
      ∨ (s.dispatch_write offset data).interrupt_evt = none) →
      ((s.write_bar offset data).device_activated = false
        ∧ (s.write_bar offset data).device.activate_count = s.device.activate_count
        ∧ (s.write_bar offset data).queue_evts = (s.dispatch_write offset data).queue_evts
        ∧ ¬((s.dispatch_write offset data).is_driver_ready = true
          ∧ (s.dispatch_write offset data).are_queues_valid = true
          ∧ (s.dispatch_write offset data).interrupt_evt.isSome = true)) := by
    intro hside
    have hnf := check_activate_no_fire _ (Or.inr hside)
    have h2 : ((s.dispatch_write offset data).check_activate).device_activated = false := by
      rw [hnf.1]; exact h1
    have hwb : s.write_bar offset data = (s.dispatch_write offset data).check_activate :=
      check_reset_skips _ (Or.inl h2)
    refine ⟨by rw [hwb]; exact h2, by rw [hwb, hnf.2.1]; exact hC,
      by rw [hwb]; exact hnf.2.2.1, ?_⟩
    rintro ⟨c1, c2, c3⟩
    rcases hside with h | h | h
    · rw [c1] at h; exact Bool.noConfusion h
    · rw [c2] at h; exact Bool.noConfusion h
    · rw [h] at c3; exact Bool.noConfusion c3
  by_cases hr : (s.dispatch_write offset data).is_driver_ready = true
  · by_cases hv : (s.dispatch_write offset data).are_queues_valid = true
    · by_cases he : (s.dispatch_write offset data).interrupt_evt.isSome = true
      · obtain ⟨ie, hev⟩ := Option.isSome_iff_exists.mp he
        obtain ⟨mem, hmem⟩ := are_queues_valid_memory _ hv
        right
        have hf := check_activate_fires _ ie mem h1 hr hv hev hmem
        have hinit : ((s.dispatch_write offset data).check_activate).is_driver_init = false := by
          have hnr := ready_not_init _ hr
          unfold VirtioPciDevice.is_driver_init at hnr ⊢
          rw [check_activate_common_config]
          exact hnr
        refine ⟨ie, mem, hr, hv, hev, hmem, ?_⟩
        show ((s.dispatch_write offset data).check_activate).check_reset = _
        rw [check_reset_skips _ (Or.inr hinit)]
        exact hf
      · exact Or.inl (hleft (Or.inr (Or.inr
          (Option.not_isSome_iff_eq_none.mp (by simpa using he)))))
    · exact Or.inl (hleft (Or.inr (Or.inl (by simpa using hv))))
  · exact Or.inl (hleft (Or.inl (by simpa using hr)))

/-- Writing driver status 0 to an activated transport whose device supports
reset: the exact successor state. -/
theorem write_bar_status0_reset_success (s : VirtioPciDevice) (ie : EventFdId)
    (hact : s.device_activated = true) (hsup : s.device.supports_reset = true)
    (hie : s.device.held_interrupt_evt = some ie) :
    s.write_bar 0x14 [0] = { s with
      device := { s.device with
        held_interrupt_evt := none, held_queue_evts := [], held_queues := [] },
      interrupt_evt := some ie,
      queue_evts := s.queue_evts ++ s.device.held_queue_evts,
      device_activated := false,
      queues := s.queues.map Queue.reset,
      common_config := { s.common_config with driver_status := 0, queue_select := 0 } } := by
  have hds : s.dispatch_write 0x14 [0]
      = { s with common_config := { s.common_config with driver_status := 0 } } := rfl
  have hca := check_activate_of_activated
    { s with common_config := { s.common_config with driver_status := 0 } } hact
  have hcr := check_reset_fires
    { s with common_config := { s.common_config with driver_status := 0 } }
    ie s.device.held_queue_evts
    { s.device with held_interrupt_evt := none, held_queue_evts := [], held_queues := [] }
    hact rfl (device_reset_some s.device ie hsup hie)
  show ((s.dispatch_write 0x14 [0]).check_activate).check_reset = _
  rw [hds, hca, hcr]

/-- Writing driver status 0 to an activated transport whose device does not
support reset: the exact successor state. -/
theorem write_bar_status0_reset_unsupported (s : VirtioPciDevice)
    (hact : s.device_activated = true) (hsup : s.device.supports_reset = false) :
    s.write_bar 0x14 [0] = { s with
      common_config := { s.common_config with driver_status := DEVICE_FAILED } } := by
  have hds : s.dispatch_write 0x14 [0]
      = { s with common_config := { s.common_config with driver_status := 0 } } := rfl
  have hca := check_activate_of_activated
    { s with common_config := { s.common_config with driver_status := 0 } } hact
  have hcr := check_reset_fails
    { s with common_config := { s.common_config with driver_status := 0 } }
    s.device hact rfl (device_reset_none s.device hsup)
  show ((s.dispatch_write 0x14 [0]).check_activate).check_reset = _
  rw [hds, hca, hcr]

/-- C1 counterexample: a transport whose driver status equals
ACKNOWLEDGE|DRIVER|DRIVER_OK|FEATURES_OK with FAILED clear, whose queues all
pass their validity check against the present memory handle and which is not
already activated, yet for which a guest register write performs no
activation — because no interrupt-trigger EventFd was ever assigned. -/
theorem claim_C1_counterexample :
    exStuck.device_activated = false
    ∧ exStuck.common_config.driver_status
        = (DEVICE_ACKNOWLEDGE ||| DEVICE_DRIVER ||| DEVICE_DRIVER_OK ||| DEVICE_FEATURES_OK)
    ∧ exStuck.common_config.driver_status &&& DEVICE_FAILED = 0
    ∧ exStuck.are_queues_valid = true
    ∧ exStuck.memory.isSome = true
    ∧ (exStuck.write_bar 0x3000 [0]).device_activated = false
    ∧ (exStuck.write_bar 0x3000 [0]).device.activate_count = 0 := by
  decide

/-- C1 (amended): the transport transitions from inactive to activated
exactly when, after a guest register write, the driver status equals
ACKNOWLEDGE|DRIVER|DRIVER_OK|FEATURES_OK with FAILED clear, every queue
passes its validity check against the present memory handle, the transport
currently holds an interrupt-trigger EventFd, and the device is not already
activated; and once device_activated is true a further write performs no
second activation call. -/
theorem claim_C1_activation_gate :
    ∀ (s : VirtioPciDevice) (offset : Nat) (data : List Nat),
      (s.device_activated = false →
        ((s.write_bar offset data).device_activated = true ↔
          ((s.dispatch_write offset data).common_config.driver_status
              = (DEVICE_ACKNOWLEDGE ||| DEVICE_DRIVER ||| DEVICE_DRIVER_OK ||| DEVICE_FEATURES_OK)
            ∧ (s.dispatch_write offset data).common_config.driver_status &&& DEVICE_FAILED = 0
            ∧ (s.dispatch_write offset data).are_queues_valid = true
            ∧ (s.dispatch_write offset data).interrupt_evt.isSome = true)))
      ∧ (s.device_activated = true →
          (s.write_bar offset data).device.activate_count = s.device.activate_count) := by
  intro s offset data
  constructor
  · intro h0
    rcases write_bar_inactive_split s offset data h0 with
      ⟨hf, _, _, hneg⟩ | ⟨ie, mem, hr, hv, hev, hmem, heq⟩
    · constructor
      · intro h
        rw [h] at hf
        exact Bool.noConfusion hf
      · rintro ⟨c1, c2, c3, c4⟩
        exact absurd ⟨(is_driver_ready_iff _).mpr ⟨c1, c2⟩, c3, c4⟩ hneg
    · constructor
      · intro _
        obtain ⟨c1, c2⟩ := (is_driver_ready_iff _).mp hr
        exact ⟨c1, c2, hv, by rw [hev]; rfl⟩
      · intro _
        rw [heq]
  · intro h0
    obtain ⟨hA, _, hC, _, _⟩ := dispatch_write_preserves s offset data
    have h1 : (s.dispatch_write offset data).device_activated = true := by rw [hA]; exact h0
    have hca := check_activate_of_activated _ h1
    show (((s.dispatch_write offset data).check_activate).check_reset).device.activate_count = _
    rw [hca, check_reset_activate_count]
    exact hC

/-- C1 witness: on the example transport with assigned interrupt and valid
queues, writing ready status activates; all four amended conditions hold at
the concrete input. -/
theorem claim_C1_activation_gate_witness :
    (exConfigured.write_bar 0x14 [15]).device_activated = true :=
  ((claim_C1_activation_gate exConfigured 0x14 [15]).1 (by decide)).mpr
    ⟨by decide, by decide, by decide, by decide⟩

/-- C10: even when the driver status is ready, every queue is valid and a
memory handle is present, a register write does not activate the device and
device_activated stays false if the transport holds no interrupt-trigger
EventFd. -/
theorem claim_C10_interrupt_evt_required :
    ∀ (s : VirtioPciDevice) (offset : Nat) (data : List Nat),
      s.device_activated = false →
      s.is_driver_ready = true →
      s.are_queues_valid = true →
      s.memory.isSome = true →
      s.interrupt_evt = none →
      (s.write_bar offset data).device_activated = false
      ∧ (s.write_bar offset data).device.activate_count = s.device.activate_count := by
  intro s offset data h0 _ _ _ hnone
  rcases write_bar_inactive_split s offset data h0 with
    ⟨hf, hcnt, _, _⟩ | ⟨ie, mem, _, _, hev, _, _⟩
  · exact ⟨hf, hcnt⟩
  · exfalso
    have hE : (s.dispatch_write offset data).interrupt_evt = s.interrupt_evt :=
      (dispatch_write_preserves s offset data).2.1
    rw [hE, hnone] at hev
    exact Option.noConfusion hev

/-- C10 witness: the ready, valid, memory-backed example transport without
an assigned interrupt EventFd does not activate on a write. -/
theorem claim_C10_interrupt_evt_required_witness :
    (exStuck.write_bar 0x2000 [0]).device_activated = false
    ∧ (exStuck.write_bar 0x2000 [0]).device.activate_count = exStuck.device.activate_count :=
  claim_C10_interrupt_evt_required exStuck 0x2000 [0]
    (by decide) (by decide) (by decide) (by decide) (by decide)

/-- C2: writing driver status 0 to an activated transport whose device reset
succeeds makes the transport reabsorb the interrupt-trigger EventFd and the
per-queue notification EventFds, clears device_activated, resets every
queue to its default disabled state, and resets queue selection to 0. -/
theorem claim_C2_reset_roundtrip :
    ∀ (s : VirtioPciDevice) (ie : EventFdId),
      s.device_activated = true →
      s.device.supports_reset = true →
      s.device.held_interrupt_evt = some ie →
      (s.write_bar 0x14 [0]).interrupt_evt = some ie
      ∧ (s.write_bar 0x14 [0]).queue_evts = s.queue_evts ++ s.device.held_queue_evts
      ∧ (s.write_bar 0x14 [0]).device_activated = false
      ∧ (s.write_bar 0x14 [0]).queues = s.queues.map Queue.reset
      ∧ (∀ q ∈ (s.write_bar 0x14 [0]).queues, q.ready = false)
      ∧ (s.write_bar 0x14 [0]).common_config.queue_select = 0 := by
  intro s ie hact hsup hie
  have key := write_bar_status0_reset_success s ie hact hsup hie
  rw [key]
  refine ⟨rfl, rfl, rfl, rfl, ?_, rfl⟩
  intro q hq
  obtain ⟨q0, _, hfq⟩ := List.mem_map.mp hq
  rw [← hfq]
  rfl

/-- C2 witness: resetting the activated example transport returns EventFd 7
and the two queue EventFds, deactivates, disables both queues and zeroes
queue selection. -/
theorem claim_C2_reset_roundtrip_witness :
    (exActivated.write_bar 0x14 [0]).interrupt_evt = some 7
    ∧ (exActivated.write_bar 0x14 [0]).queue_evts
        = exActivated.queue_evts ++ exActivated.device.held_queue_evts
    ∧ (exActivated.write_bar 0x14 [0]).device_activated = false
    ∧ (exActivated.write_bar 0x14 [0]).queues = exActivated.queues.map Queue.reset
    ∧ (∀ q ∈ (exActivated.write_bar 0x14 [0]).queues, q.ready = false)
    ∧ (exActivated.write_bar 0x14 [0]).common_config.queue_select = 0 :=
  claim_C2_reset_roundtrip exActivated 7 (by decide) (by decide) (by decide)

/-- C7: writing driver status 0 to an activated transport whose device does
not support reset forces the driver status to FAILED and leaves
device_activated true with the queues, the queue-selection register and the
signal-handle ownership unchanged. -/
theorem claim_C7_reset_unsupported :
    ∀ (s : VirtioPciDevice),
      s.device_activated = true →
      s.device.supports_reset = false →
      (s.write_bar 0x14 [0]).common_config.driver_status = DEVICE_FAILED
      ∧ (s.write_bar 0x14 [0]).device_activated = true
      ∧ (s.write_bar 0x14 [0]).queues = s.queues
      ∧ (s.write_bar 0x14 [0]).common_config.queue_select = s.common_config.queue_select
      ∧ (s.write_bar 0x14 [0]).interrupt_evt = s.interrupt_evt
      ∧ (s.write_bar 0x14 [0]).queue_evts = s.queue_evts
      ∧ (s.write_bar 0x14 [0]).device.held_interrupt_evt = s.device.held_interrupt_evt
      ∧ (s.write_bar 0x14 [0]).device.held_queue_evts = s.device.held_queue_evts := by
  intro s hact hsup
  have key := write_bar_status0_reset_unsupported s hact hsup
  rw [key]
  exact ⟨rfl, hact, rfl, rfl, rfl, rfl, rfl, rfl⟩

/-- C7 witness: the activated reset-incapable example transport reports
FAILED and keeps running. -/
theorem claim_C7_reset_unsupported_witness :
    (exActivatedNoReset.write_bar 0x14 [0]).common_config.driver_status = DEVICE_FAILED
    ∧ (exActivatedNoReset.write_bar 0x14 [0]).device_activated = true
    ∧ (exActivatedNoReset.write_bar 0x14 [0]).queues = exActivatedNoReset.queues
    ∧ (exActivatedNoReset.write_bar 0x14 [0]).common_config.queue_select
        = exActivatedNoReset.common_config.queue_select
    ∧ (exActivatedNoReset.write_bar 0x14 [0]).interrupt_evt = exActivatedNoReset.interrupt_evt
    ∧ (exActivatedNoReset.write_bar 0x14 [0]).queue_evts = exActivatedNoReset.queue_evts
    ∧ (exActivatedNoReset.write_bar 0x14 [0]).device.held_interrupt_evt
        = exActivatedNoReset.device.held_interrupt_evt
    ∧ (exActivatedNoReset.write_bar 0x14 [0]).device.held_queue_evts
        = exActivatedNoReset.device.held_queue_evts := by
  have h := claim_C7_reset_unsupported exActivatedNoReset (by decide) (by decide)
  exact h

/-- C3 counterexample: after activation, the example transport holds zero
notification EventFds while it has two queues (matching the device's two
reported maximum queue sizes), so the handle count does not equal the queue
count at all times. -/
theorem claim_C3_counterexample :
    exActivated.device_activated = true
    ∧ exActivated.queues.length = exActivated.device.queue_max_sizes.length
    ∧ exActivated.queue_evts.length ≠ exActivated.queues.length := by
  decide

/-- C3 (amended): after construction and after a successful reset the number
of notification EventFds held by the transport equals the number of queues,
which equals the number of device-reported maximum queue sizes; while the
device is activated the transport holds zero notification EventFds, the full
set having been transferred to the device. -/
theorem claim_C3_signal_cardinality :
    (∀ (mem : GuestMemoryMmap) (dev : VirtioDevice),
      (VirtioPciDevice.new mem dev).queue_evts.length
          = (VirtioPciDevice.new mem dev).queues.length
      ∧ (VirtioPciDevice.new mem dev).queues.length = dev.queue_max_sizes.length)
    ∧ (∀ (s : VirtioPciDevice) (offset : Nat) (data : List Nat),
      s.device_activated = false →
      (s.write_bar offset data).device_activated = true →
      (s.write_bar offset data).queue_evts = []
      ∧ (s.write_bar offset data).device.held_queue_evts
          = (s.dispatch_write offset data).queue_evts)
    ∧ (∀ (s : VirtioPciDevice) (ie : EventFdId),
      s.device_activated = true →
      s.queue_evts = [] →
      s.device.supports_reset = true →
      s.device.held_interrupt_evt = some ie →
      s.device.held_queue_evts.length = s.queues.length →
      s.queues.length = s.device.queue_max_sizes.length →
      (s.write_bar 0x14 [0]).queue_evts.length = (s.write_bar 0x14 [0]).queues.length
      ∧ (s.write_bar 0x14 [0]).queues.length
          = (s.write_bar 0x14 [0]).device.queue_max_sizes.length) := by
  refine ⟨?_, ?_, ?_⟩
  · intro mem dev
    constructor
    · show (List.range dev.queue_max_sizes.length).length = (dev.queue_max_sizes.map Queue.new).length
      simp
    · show (dev.queue_max_sizes.map Queue.new).length = dev.queue_max_sizes.length
      simp
  · intro s offset data h0 hres
    rcases write_bar_inactive_split s offset data h0 with
      ⟨hf, _, _, _⟩ | ⟨ie, mem, _, _, _, _, heq⟩
    · rw [hres] at hf
      exact Bool.noConfusion hf
    · rw [heq]
      exact ⟨rfl, rfl⟩
  · intro s ie hact hqe hsup hie hlen hqs
    have key := write_bar_status0_reset_success s ie hact hsup hie
    rw [key]
    constructor
    · show (s.queue_evts ++ s.device.held_queue_evts).length = (s.queues.map Queue.reset).length
      rw [hqe]
      simpa using hlen
    · show (s.queues.map Queue.reset).length = s.device.queue_max_sizes.length
      simpa using hqs

/-- C3 witness: the three cardinality statements at the concrete example —
construction, the activating write, and the resetting write. -/
theorem claim_C3_signal_cardinality_witness :
    ((VirtioPciDevice.new exMem exDevice).queue_evts.length
        = (VirtioPciDevice.new exMem exDevice).queues.length)
    ∧ ((exConfigured.write_bar 0x14 [15]).queue_evts = []
      ∧ (exConfigured.write_bar 0x14 [15]).device.held_queue_evts
          = (exConfigured.dispatch_write 0x14 [15]).queue_evts)
    ∧ ((exActivated.write_bar 0x14 [0]).queue_evts.length
        = (exActivated.write_bar 0x14 [0]).queues.length) :=
  ⟨(claim_C3_signal_cardinality.1 exMem exDevice).1,
    claim_C3_signal_cardinality.2.1 exConfigured 0x14 [15] (by decide) (by decide),
    (claim_C3_signal_cardinality.2.2 exActivated 7 (by decide) (by decide) (by decide)
      (by decide) (by decide) (by decide)).1⟩

end VirtioPciModel
